import Mathlib

/-!
Shallow embedding of `src/generate_reports.py` (MwsAnalytics).

The script drives a report pipeline against the MWS Reports API:
`main` builds an MWS client, requests an orders report
(`_request_report`), polls the report-request list for the generated
report id (`_poll_for_report`), opens a local sqlite database
(`_open_db`), and fetches/parses/stores the report
(`_process_report`, `Purchase.write_to_db`).

Modelling conventions, each noted at the definition it concerns:
remote calls are environments mapping call indices to
`Except MWSError …` results; the sqlite `purchases` table is a
`List Purchase`; `sys.exit()` (no argument, hence process status 0),
uncaught Python exceptions (`KeyError`, `AttributeError`, `TypeError`,
process status 1), `time.sleep` calls and `print` output are recorded
explicitly in result structures.  Local Python-level slips that would
stop the module from even loading are smoothed over where noted
(`class Purchase(Object)` read as `object`, the empty `except` block in
`_open_db` read as `pass`, `cursor.commit()` read as a commit,
`request_id` on line 98 read as `report_request_id`); every piece of
control flow and data flow is kept exactly as written.
-/

namespace GenerateReports

/-- One normalized sale line, `class Purchase` (source lines 15-20):
fields `order_id`, `purchase_date`, `sku`. -/
structure Purchase where
  order_id : String
  purchase_date : String
  sku : String
deriving DecidableEq, Repr

/-- The `purchases` sqlite table (created in `_open_db`, lines 55-56):
logical columns `order_id text, purchase_date text, sku text`, with no
primary key and no uniqueness constraint.  A row list in insertion
order. -/
abbrev Table := List Purchase

/-- `Purchase.write_to_db` (source lines 22-26): executes the plain
`INSERT INTO purchases VALUES (?, ?, ?)` — an unconditional append, no
key lookup, no ON CONFLICT clause.  (Line 26 says `cursor.commit()`,
an `AttributeError` in real sqlite3 — modelled as the evidently
intended commit of the insert.) -/
def write_to_db (p : Purchase) (table : Table) : Table :=
  table ++ [p]

/-- Writing a record sequence one `write_to_db` at a time, as the loop
in `_process_report` (lines 127-133) does; this is the code's whole
"upsert" of a batch. -/
def writeAll (records : List Purchase) (table : Table) : Table :=
  records.foldl (fun t p => write_to_db p t) table

/-- The single error class `mws.MWSError` that the script catches; the
spec's `AuthenticationError` and `TransientServiceError` both surface
as this class, distinguished only by their message. -/
structure MWSError where
  msg : String
deriving DecidableEq, Repr

/-- `ReportProcessingStatus` values of the MWS report request list.
`_poll_for_report` never inspects this field. -/
inductive Status where
  | SUBMITTED
  | IN_PROGRESS
  | DONE
  | CANCELLED
deriving DecidableEq, Repr

/-- One parsed response of `get_report_request_list`: the
`ReportRequestInfo` node with its processing status and its
`GeneratedReportId` entry; the latter is present (`some`) only once
the report has actually been generated. -/
structure PollResponse where
  status : Status
  generatedReportId : Option String
deriving DecidableEq, Repr

/-- How `_poll_for_report` (source lines 83-108) can end.  The loop
either breaks on the first successful call and reads
`response.parsed['ReportRequestInfo']['GeneratedReportId']['value']`
(a `KeyError` when the entry is absent), or leaves via `sys.exit()` in
the `except MWSError` branch.  Each outcome records the number of
`get_report_request_list` attempts made and of `time.sleep` calls
performed. -/
inductive PollOutcome where
  | returned (reportId : String) (attempts : Nat) (sleeps : Nat)
  | exited (attempts : Nat) (sleeps : Nat)
  | keyError (attempts : Nat) (sleeps : Nat)
deriving DecidableEq, Repr

/-- Number of status-call attempts an outcome records. -/
def PollOutcome.attempts : PollOutcome → Nat
  | returned _ n _ => n
  | exited n _ => n
  | keyError n _ => n

/-- The diagnostic printed on line 101.  That `print` call has no
`file` argument, so the line goes to standard output. -/
def pollErrLine (e : MWSError) : String :=
  "Error requesting report request list.\n\n" ++ e.msg

/-- The `while True` loop of `_poll_for_report` (lines 95-106),
verbatim: increment `retry_count`, call `get_report_request_list`
(line 98; `request_id` there read as the `report_request_id`
parameter), `break` on success; on `MWSError` print the diagnostic,
then `if retry_count == 3: time.sleep; continue else: sys.exit()` — the
condition exactly as written, retrying only when the counter equals 3.
`calls n` is the result of the (n+1)-st remote call; `retry_count` is
the count before the increment at the top of the loop body;
`out` accumulates printed stdout lines. -/
def pollAux (calls : Nat → Except MWSError PollResponse)
    (retry_count : Nat) (sleeps : Nat) (out : List String) :
    PollOutcome × List String :=
  match calls retry_count with
  | Except.ok resp =>
      match resp.generatedReportId with
      | some rid => (PollOutcome.returned rid (retry_count + 1) sleeps, out)
      | none => (PollOutcome.keyError (retry_count + 1) sleeps, out)
  | Except.error e =>
      if _h : retry_count + 1 = 3 then
        pollAux calls (retry_count + 1) (sleeps + 1) (out ++ [pollErrLine e])
      else
        (PollOutcome.exited (retry_count + 1) sleeps, out ++ [pollErrLine e])
termination_by 4 - retry_count
decreasing_by omega

/-- `_poll_for_report` from its entry (`retry_count = 0`, nothing
slept, nothing printed). -/
def pollRun (calls : Nat → Except MWSError PollResponse) :
    PollOutcome × List String :=
  pollAux calls 0 0 []

/-- One `Message` element of the report payload as `_process_report`
reads it (lines 127-130): the text of `Order/AmazonOrderId`,
`Order/PurchaseDate` and `OrderItem/SKU`.  `none` models a missing
element, where `find` returns `None` and the subsequent `.text` raises
`AttributeError`. -/
structure Message where
  amazonOrderId : Option String
  purchaseDate : Option String
  sku : Option String
deriving DecidableEq, Repr

/-- The three extractions of lines 128-130 followed by the
`Purchase(...)` construction of line 132; `none` when any required
field is missing (the `.text` on `None` that crashes the loop body). -/
def extractPurchase (m : Message) : Option Purchase :=
  match m.amazonOrderId, m.purchaseDate, m.sku with
  | some oid, some pd, some sk => some ⟨oid, pd, sk⟩
  | _, _, _ => none

/-- Result of the parse-and-write loop of `_process_report`
(lines 126-133): either the loop finishes and the table holds all
extracted records, or a missing field raises `AttributeError`
mid-loop, leaving the table as already written up to that point
(there is no transaction around the loop). -/
inductive ProcessResult where
  | ok (table : Table)
  | attrError (table : Table)
deriving DecidableEq, Repr

/-- The `for message in root.findall('Message')` loop of
`_process_report` (lines 127-133): per message, extract the three
fields and immediately `write_to_db` the record; a missing field
aborts the whole run with `AttributeError`, after the earlier
writes have already happened. -/
def processMessages : List Message → Table → ProcessResult
  | [], table => ProcessResult.ok table
  | m :: ms, table =>
      match extractPurchase m with
      | some p => processMessages ms (write_to_db p table)
      | none => ProcessResult.attrError table

/-- The remote-service behaviour one run of `main` is exposed to:
the outcome of `request_report` (line 72; `Except.ok` carries the
`ReportRequestId`) and the per-attempt outcomes of
`get_report_request_list` (line 98). `get_report` and the payload
never come into play: `main` (line 147) calls
`_process_report(mws_conn, report_id)` without the `db_conn`
argument, raising `TypeError` at the call before any fetch. -/
structure Env where
  requestResult : Except MWSError String
  pollCalls : Nat → Except MWSError PollResponse

/-- Stand-in for the text `print` produces for the `sys.stderr` object
itself: on lines 76-77 (`_request_report`) and 122-123
(`_process_report`) the script calls `print(msg, sys.stderr)`,
passing `sys.stderr` as a second positional value rather than as the
`file` keyword, so the whole line — message, then this object repr —
goes to standard output. -/
def stderrObjText : String := "<sys.stderr object>"

/-- The line `print` emits on standard output for the error path of
`_request_report` (lines 76-77): the formatted message and the
positional `sys.stderr` argument, space-separated. -/
def requestErrLine (e : MWSError) : String :=
  "Error requesting report from MWS.\n\n" ++ e.msg ++ " " ++ stderrObjText

/-- Observable result of one process run of `main` (lines 136-147):
exit status (`sys.exit()` with no argument exits 0; an uncaught
`KeyError`/`TypeError` exits 1; falling off the end of `main` exits
0), the lines printed to stdout and to stderr, how many
`get_report_request_list` attempts and `time.sleep` calls happened,
whether `_open_db` ran (connecting to `mws.db` and ensuring the
`purchases` table), whether the body of `_process_report` ran, and
the final content of the `purchases` table. -/
structure RunResult where
  exitCode : Nat
  stdoutLines : List String
  stderrLines : List String
  pollAttempts : Nat
  sleeps : Nat
  dbOpened : Bool
  processReportCalled : Bool
  finalTable : Table
deriving Repr

/-- `main` (source lines 136-147) against environment `env`, with the
`purchases` table initially holding `table` (empty on a first run):
`_request_report` either returns the request id or prints its
diagnostic and calls `sys.exit()` (status 0); then `_poll_for_report`
runs (its `sys.exit()` also exits 0; reading an absent
`GeneratedReportId` raises `KeyError`, status 1); then `_open_db`
connects and ensures the table; then line 147 calls
`_process_report(mws_conn, report_id)` — two arguments for a
three-parameter function — which raises `TypeError` (status 1) before
the function body runs, so no fetch, no parse and no write ever
happen in `main` as written. -/
def mainRun (env : Env) (table : Table) : RunResult :=
  match env.requestResult with
  | Except.error e =>
      { exitCode := 0
        stdoutLines := [requestErrLine e]
        stderrLines := []
        pollAttempts := 0
        sleeps := 0
        dbOpened := false
        processReportCalled := false
        finalTable := table }
  | Except.ok _ =>
      match pollRun env.pollCalls with
      | (PollOutcome.exited n s, out) =>
          { exitCode := 0
            stdoutLines := out
            stderrLines := []
            pollAttempts := n
            sleeps := s
            dbOpened := false
            processReportCalled := false
            finalTable := table }
      | (PollOutcome.keyError n s, out) =>
          { exitCode := 1
            stdoutLines := out
            stderrLines := []
            pollAttempts := n
            sleeps := s
            dbOpened := false
            processReportCalled := false
            finalTable := table }
      | (PollOutcome.returned _ n s, out) =>
          { exitCode := 1
            stdoutLines := out
            stderrLines := []
            pollAttempts := n
            sleeps := s
            dbOpened := true
            processReportCalled := false
            finalTable := table }

/-! Concrete fixtures used by the claim theorems. -/

/-- A concrete purchase record. -/
def samplePurchase : Purchase := ⟨"A-1", "2023-01-01T00:00:00", "SKU1"⟩

/-- A well-formed message carrying order id A-1. -/
def goodMsg1 : Message :=
  ⟨some "A-1", some "2023-01-01T00:00:00", some "SKU1"⟩

/-- A well-formed message carrying order id A-2. -/
def goodMsg2 : Message :=
  ⟨some "A-2", some "2023-01-02T00:00:00", some "SKU2"⟩

/-- A message whose `OrderItem/SKU` element is missing. -/
def badMsgNoSku : Message :=
  ⟨some "A-2", some "2023-01-02T00:00:00", none⟩

/-- A remote service on which every `get_report_request_list` call
raises a transient `MWSError`. -/
def allTransient : Nat → Except MWSError PollResponse :=
  fun _ => Except.error ⟨"503 service unavailable"⟩

/-- The status sequence SUBMITTED, IN_PROGRESS, IN_PROGRESS, DONE
with no errors; `GeneratedReportId` is present only on the DONE
response. -/
def c3Calls : Nat → Except MWSError PollResponse
  | 0 => Except.ok ⟨Status.SUBMITTED, none⟩
  | 1 => Except.ok ⟨Status.IN_PROGRESS, none⟩
  | 2 => Except.ok ⟨Status.IN_PROGRESS, none⟩
  | _ => Except.ok ⟨Status.DONE, some "RPT1"⟩

/-- A remote service that reports IN_PROGRESS forever, never reaching
DONE and never raising. -/
def inProgressForever : Nat → Except MWSError PollResponse :=
  fun _ => Except.ok ⟨Status.IN_PROGRESS, none⟩

/-- An environment where `request_report` is rejected (the
authentication-failure shape of `MWSError`). -/
def authFailEnv : Env :=
  ⟨Except.error ⟨"Access denied"⟩, fun _ => Except.ok ⟨Status.DONE, some "RPT1"⟩⟩

/-- An environment where `request_report` succeeds and every poll
call raises a transient `MWSError`. -/
def pollFailEnv : Env := ⟨Except.ok "REQ1", allTransient⟩

/-- An environment where every remote call succeeds at once. -/
def happyEnv : Env :=
  ⟨Except.ok "REQ1", fun _ => Except.ok ⟨Status.DONE, some "RPT1"⟩⟩

/-! Helper lemmas shared by the claim theorems. -/

/-- `writeAll` appends the records, in order, to the table. -/
theorem writeAll_eq_append (records : List Purchase) :
    ∀ table : Table, writeAll records table = table ++ records := by
  induction records with
  | nil => intro t; simp [writeAll]
  | cons r rs ih =>
      intro t
      show writeAll rs (write_to_db r t) = t ++ r :: rs
      rw [ih, write_to_db]
      simp

/-- A message with no SKU extracts to nothing (the `.text` on the
missing `OrderItem/SKU` is where the loop body dies). -/
theorem extractPurchase_eq_none_of_sku_none {m : Message}
    (h : m.sku = none) : extractPurchase m = none := by
  rcases m with ⟨a, p, s⟩
  cases h
  cases a <;> cases p <;> rfl

/-! Claim theorems. -/

/-- C1, counterexample: writing the one-record sequence
`[samplePurchase]` twice does not leave the table unchanged — the
second invocation appends a duplicate row for the already-present
`(orderId, sku)` pair, and the row count grows from 1 to 2. -/
theorem c1_counterexample :
    writeAll [samplePurchase] (writeAll [samplePurchase] []) ≠
      writeAll [samplePurchase] [] ∧
    (writeAll [samplePurchase] (writeAll [samplePurchase] [])).length = 2 ∧
    (writeAll [samplePurchase] []).length = 1 := by
  decide

/-- C1, amended: the store's write path is a plain `INSERT` with no
`(orderId, sku)` uniqueness check, so invoking it twice with an
identical record sequence appends the whole sequence again: after the
second call the table holds the records twice and the row count has
grown by the sequence length, rather than staying stable. -/
theorem c1_amended (records : List Purchase) (table : Table) :
    writeAll records (writeAll records table) =
      table ++ records ++ records ∧
    (writeAll records (writeAll records table)).length =
      table.length + records.length + records.length := by
  rw [writeAll_eq_append, writeAll_eq_append]
  constructor
  · rfl
  · simp [Nat.add_assoc]

/-- C1, witness: the amended statement at the concrete one-record
sequence. -/
theorem c1_amended_witness :
    writeAll [samplePurchase] (writeAll [samplePurchase] []) =
      [] ++ [samplePurchase] ++ [samplePurchase] ∧
    (writeAll [samplePurchase] (writeAll [samplePurchase] [])).length =
      ([] : Table).length + [samplePurchase].length + [samplePurchase].length :=
  c1_amended [samplePurchase] []

/-- C2: with every status call raising a transient `MWSError`, the
poller does not fail after the 4th attempt — it performs exactly one
attempt and leaves via `sys.exit()` (no sleep, one stdout
diagnostic), because the retry guard `if retry_count == 3` is
inverted: on the first failure the counter is 1, so the `else:
sys.exit()` branch runs. -/
theorem c2_code_behavior :
    pollRun allTransient =
      (PollOutcome.exited 1 0, [pollErrLine ⟨"503 service unavailable"⟩]) := by
  rw [pollRun, pollAux]
  simp [allTransient]

/-- C3: on the error-free status sequence SUBMITTED, IN_PROGRESS,
IN_PROGRESS, DONE the poller does not make 4 calls and does not
return the DONE response's report id RPT1 — it makes exactly one
call, never inspects the status, and crashes with `KeyError` reading
the absent `GeneratedReportId` of the SUBMITTED response. -/
theorem c3_code_behavior :
    pollRun c3Calls = (PollOutcome.keyError 1 0, []) := by
  rw [pollRun, pollAux]
  simp [c3Calls]

/-- C4, counterexample: a payload whose second message is missing the
SKU element does abort the run with an error, but the store does not
remain untouched: the well-formed first message was already written
before the crash, so one record is persisted, not zero. -/
theorem c4_counterexample :
    processMessages [goodMsg1, badMsgNoSku] [] =
      ProcessResult.attrError [⟨"A-1", "2023-01-01T00:00:00", "SKU1"⟩] ∧
    ([⟨"A-1", "2023-01-01T00:00:00", "SKU1"⟩] : Table) ≠ [] := by
  decide

/-- C4, amended: a message missing its SKU element aborts the run
with `AttributeError` (`.text` on `None`; there is no
`MalformedReportError` class and no transaction), and every
well-formed message preceding it in the payload has already been
written: the store ends up holding exactly the initial table plus the
records of that prefix. -/
theorem c4_amended (pre : List Message) (bad : Message)
    (rest : List Message) (table : Table)
    (hpre : ∀ m ∈ pre, (extractPurchase m).isSome = true)
    (hbad : bad.sku = none) :
    processMessages (pre ++ bad :: rest) table =
      ProcessResult.attrError (table ++ pre.filterMap extractPurchase) := by
  induction pre generalizing table with
  | nil =>
      simp [processMessages, extractPurchase_eq_none_of_sku_none hbad]
  | cons m ms ih =>
      obtain ⟨p, hp⟩ := Option.isSome_iff_exists.mp (hpre m (by simp))
      have hms : ∀ x ∈ ms, (extractPurchase x).isSome = true :=
        fun x hx => hpre x (by simp [hx])
      show processMessages (m :: (ms ++ bad :: rest)) table = _
      rw [processMessages, hp]
      show processMessages (ms ++ bad :: rest) (write_to_db p table) =
        ProcessResult.attrError (table ++ List.filterMap extractPurchase (m :: ms))
      rw [ih _ hms]
      simp [write_to_db, List.filterMap_cons, hp]

/-- C4, witness: the amended statement at the concrete two-message
payload, one well-formed message followed by one missing its SKU. -/
theorem c4_amended_witness :
    processMessages ([goodMsg1] ++ badMsgNoSku :: []) [] =
      ProcessResult.attrError ([] ++ [goodMsg1].filterMap extractPurchase) :=
  c4_amended [goodMsg1] badMsgNoSku [] [] (by decide) (by decide)

/-- C5: on a payload of exactly the two well-formed messages with
order ids A-1 and A-2, dates 2023-01-01T00:00:00 and
2023-01-02T00:00:00, and SKUs SKU1 and SKU2, the parse-and-write loop
completes and yields exactly the two purchase records with those
field values, in document order. -/
theorem c5_parse_two_records :
    processMessages [goodMsg1, goodMsg2] [] =
      ProcessResult.ok
        [⟨"A-1", "2023-01-01T00:00:00", "SKU1"⟩,
         ⟨"A-2", "2023-01-02T00:00:00", "SKU2"⟩] := by
  decide

/-- C6: exit status 0 does not coincide with success.  When
`request_report` raises (e.g. rejected credentials), `_request_report`
prints its diagnostic and calls `sys.exit()` with no argument, so the
terminal failure exits with status 0; and when every remote call
succeeds, the run still exits 1, because line 147 calls
`_process_report(mws_conn, report_id)` without its `db_conn` argument
and dies on `TypeError` — full success is unreachable. -/
theorem c6_code_behavior :
    (mainRun authFailEnv []).exitCode = 0 ∧
    (mainRun pollFailEnv []).exitCode = 0 ∧
    (mainRun happyEnv []).exitCode = 1 := by
  refine ⟨rfl, ?_, ?_⟩
  · simp [mainRun, pollFailEnv, pollRun, pollAux, allTransient]
  · simp [mainRun, happyEnv, pollRun, pollAux]

/-- C7: if `request_report` raises `MWSError` (authentication
failure), the run short-circuits inside `_request_report`: zero poll
attempts, zero sleeps, the database is never opened, the body of
`_process_report` never runs, the only output is the request-stage
diagnostic, and the store is untouched. -/
theorem c7_auth_short_circuit (env : Env) (table : Table) (e : MWSError)
    (h : env.requestResult = Except.error e) :
    (mainRun env table).pollAttempts = 0 ∧
    (mainRun env table).sleeps = 0 ∧
    (mainRun env table).dbOpened = false ∧
    (mainRun env table).processReportCalled = false ∧
    (mainRun env table).stdoutLines = [requestErrLine e] ∧
    (mainRun env table).finalTable = table := by
  simp [mainRun, h]

/-- C7, witness: the short-circuit at the concrete
rejected-credentials environment. -/
theorem c7_witness :
    (mainRun authFailEnv []).pollAttempts = 0 ∧
    (mainRun authFailEnv []).sleeps = 0 ∧
    (mainRun authFailEnv []).dbOpened = false ∧
    (mainRun authFailEnv []).processReportCalled = false ∧
    (mainRun authFailEnv []).stdoutLines = [requestErrLine ⟨"Access denied"⟩] ∧
    (mainRun authFailEnv []).finalTable = [] :=
  c7_auth_short_circuit authFailEnv [] ⟨"Access denied"⟩ rfl

/-- C8, counterexample: on a status sequence that never reaches DONE
(IN_PROGRESS forever, no errors) the poller does not transition to
any TIMED_OUT state when a cap is exceeded — no duration or
poll-count cap exists in the code.  It makes exactly one call, never
sleeps, and crashes with `KeyError` reading the absent
`GeneratedReportId` of that first IN_PROGRESS response. -/
theorem c8_counterexample :
    pollRun inProgressForever = (PollOutcome.keyError 1 0, []) := by
  rw [pollRun, pollAux]
  simp [inProgressForever]

/-- C8, amended: the poll loop is degenerately bounded, but not by
any configured cap: for every call sequence whatsoever it performs
exactly one `get_report_request_list` attempt (a success breaks out
of the loop regardless of status; a failure takes the `else:
sys.exit()` branch since the retry counter is 1, not 3), so the loop
always terminates, and no TIMED_OUT transition exists. -/
theorem c8_amended (calls : Nat → Except MWSError PollResponse) :
    (pollRun calls).1.attempts = 1 := by
  rcases h : calls 0 with e | resp
  · simp [pollRun, pollAux, h, PollOutcome.attempts]
  · rcases hr : resp.generatedReportId with _ | rid
    · simp [pollRun, pollAux, h, hr, PollOutcome.attempts]
    · simp [pollRun, pollAux, h, hr, PollOutcome.attempts]

/-- C8, witness: the amended statement at the concrete never-DONE
sequence. -/
theorem c8_amended_witness :
    (pollRun inProgressForever).1.attempts = 1 :=
  c8_amended inProgressForever

/-- C9: failure diagnostics do not go to the error stream.  On a
request-stage failure, `print(msg, sys.stderr)` passes `sys.stderr`
as a positional value (not as the `file` keyword), so the diagnostic
— with the stderr object's repr appended — lands on standard output
and standard error receives nothing; on a poll-stage failure the
`print` on line 101 names no stream at all, so that diagnostic also
goes to standard output, while standard error stays empty. -/
theorem c9_code_behavior :
    (mainRun authFailEnv []).stderrLines = [] ∧
    (mainRun authFailEnv []).stdoutLines =
      [requestErrLine ⟨"Access denied"⟩] ∧
    (mainRun pollFailEnv []).stderrLines = [] ∧
    (mainRun pollFailEnv []).stdoutLines =
      [pollErrLine ⟨"503 service unavailable"⟩] := by
  refine ⟨rfl, rfl, ?_, ?_⟩ <;>
    simp [mainRun, pollFailEnv, pollRun, pollAux, allTransient]

/-- C10: `main` reaches `_open_db` only after `_request_report` has
returned a request id and `_poll_for_report` has returned a generated
report id; on every run where the request stage fails or the poll
stage ends in `sys.exit()` or `KeyError`, the sqlite database is
never opened and the purchases table is left exactly as it was. -/
theorem c10_db_untouched (env : Env) (table : Table)
    (h : (∃ e, env.requestResult = Except.error e) ∨
         (∃ n s out, pollRun env.pollCalls = (PollOutcome.exited n s, out)) ∨
         (∃ n s out, pollRun env.pollCalls = (PollOutcome.keyError n s, out))) :
    (mainRun env table).dbOpened = false ∧
    (mainRun env table).finalTable = table := by
  rcases hreq : env.requestResult with e | rid
  · simp [mainRun, hreq]
  · rcases h with ⟨e, he⟩ | ⟨n, s, out, hp⟩ | ⟨n, s, out, hp⟩
    · rw [hreq] at he
      exact absurd he (by simp)
    · simp [mainRun, hreq, hp]
    · simp [mainRun, hreq, hp]

/-- C10, witness: the concrete environment whose poll stage exits
after its first failing call leaves the database unopened and the
table untouched. -/
theorem c10_witness :
    (mainRun pollFailEnv []).dbOpened = false ∧
    (mainRun pollFailEnv []).finalTable = [] :=
  c10_db_untouched pollFailEnv []
    (Or.inr (Or.inl ⟨1, 0, [pollErrLine ⟨"503 service unavailable"⟩], by
      rw [pollRun, pollAux]; simp [pollFailEnv, allTransient]⟩))

end GenerateReports
